import Mathlib

/-!
Verification development for a news-report application consisting of a
Redis-backed report store (class `Model` in mvc.py), a controller that
serializes search-term lists as comma-joined strings (class `Controller`
in mvc.py), and a decorator-chain report renderer (report.py).

Modelling choices:
* The Redis database is modelled by `Store`: the scalar value at key
  `report:count` becomes `Store.count : Option Nat` (absent key = `none`),
  and the hash records at keys `report:1`, `report:2`, ... become
  `Store.records : Nat → Option ReportRec` (the key `report:i` is written
  `i`, faithful because `fun i => "report:" ++ toString i` is injective).
  `create_report` always writes all four hash fields together, so a record
  is modelled as a structure of four strings.
* Python functions that fall off the end return `None`; `Model.create_report`
  therefore returns the updated store paired with `none : Option Nat`.
* A Python call that raises (e.g. `int(None)` in `get_report_names` when the
  counter key is absent) is modelled by an `Option` result of `none`.
* The News API client is modelled by `NewsApi`, a record of the three query
  shapes the renderer issues; articles are records of four optional strings,
  and Python `str(x)` applied to a possibly-`None` field is `pyStr`.
* The Python comma-join and `.split(",")` are modelled by `pyJoin` and
  `pySplit` below, matching CPython semantics for a non-empty separator
  (in particular `"".split(",") == [""]`).
-/

/-- One report hash record, fields as written by `Model.create_report`
(mvc.py lines 196-200): `report_name`, `source_id`, `title_search_terms`,
`all_search_terms`, the last two stored in comma-joined serialized form. -/
structure ReportRec where
  report_name : String
  source_id : String
  title_search_terms : String
  all_search_terms : String
  deriving DecidableEq, Repr

/-- The Redis database state visible to `Model`: the counter at key
`report:count` and the report hashes at keys `report:i`. -/
structure Store where
  count : Option Nat
  records : Nat → Option ReportRec

/-- A store with no keys at all. -/
def Store.empty : Store := { count := none, records := fun _ => none }

/-- mvc.py `Model.create_report` (lines 189-202): reads `report:count`
(absent becomes 1, otherwise the integer plus one), writes the new count
back, then writes the four fields of the hash at key `report:count-value`.
The Python method has no `return` statement, so its value is `None`,
modelled by the second component `none`. -/
def Model.create_report (s : Store) (report_name source_id title_search_terms all_search_terms : String) :
    Store × Option Nat :=
  let count : Nat :=
    match s.count with
    | none => 1
    | some c => c + 1
  let s1 : Store := { s with count := some count }
  let s2 : Store :=
    { s1 with
      records := fun i =>
        if i = count then
          some { report_name := report_name, source_id := source_id,
                 title_search_terms := title_search_terms,
                 all_search_terms := all_search_terms }
        else s1.records i }
  (s2, none)

/-- mvc.py `Model.get_report_names` (lines 206-215): runs
`int(dbconn.get("report:count"))` — when the counter key is absent the
Redis `get` returns `None` and `int(None)` raises `TypeError`, modelled by
the result `none`.  Otherwise the loop collects
`hget("report:" + str(i), "report_name")` for `i = 1..count` in order;
each `hget` may itself be `None` when the record is missing, so the
elements are `Option String`. -/
def Model.get_report_names (s : Store) : Option (List (Option String)) :=
  match s.count with
  | none => none
  | some count =>
      some ((List.range' 1 count).map fun i => (s.records i).map (·.report_name))

/-- mvc.py `Model.get_report_data` (lines 219-225): three `hget` calls on
the hash at key `report:report_id`; each is `None` when the record is
absent. -/
def Model.get_report_data (s : Store) (report_id : Nat) :
    Option String × Option String × Option String :=
  ((s.records report_id).map (·.source_id),
   (s.records report_id).map (·.title_search_terms),
   (s.records report_id).map (·.all_search_terms))

/-!  Serialization of search-term lists (Controller, mvc.py).  -/

/-- CPython `sep.join(ss)` for a list of strings: the elements interleaved
with the separator, `""` on the empty list. -/
def pyJoin (sep : String) : List String → String
  | [] => ""
  | [t] => t
  | t :: rest => t ++ sep ++ pyJoin sep rest

/-- Helper for `pySplit`: splits a character list at every occurrence of
`sep`, returning the first chunk and the remaining chunks. -/
def splitSep (sep : Char) : List Char → List Char × List (List Char)
  | [] => ([], [])
  | c :: cs =>
      let r := splitSep sep cs
      if c = sep then ([], r.1 :: r.2) else (c :: r.1, r.2)

/-- CPython `s.split(sep)` for a one-character separator: chunks between
occurrences of `sep`, so `"".split(",") == [""]` and
`"a,,b".split(",") == ["a", "", "b"]`. -/
def pySplit (sep : Char) (s : String) : List String :=
  let r := splitSep sep s.data
  (r.1 :: r.2).map String.mk

/-- mvc.py line 123-124: `Controller.__create_report` serializes each
search-term list with `",".join(...)` before handing it to the model. -/
def serializeTerms (ts : List String) : String := pyJoin "," ts

/-- mvc.py lines 145-152: `Controller.__print_report` turns a stored
serialized field back into a term list — it splits on `","` only when the
stored string is non-empty, otherwise no terms at all are used. -/
def deserializeTerms (s : String) : List String :=
  if s.length ≠ 0 then pySplit ',' s else []

/-!  The report renderer (report.py) and the decorator chain built by
`Controller.__print_report` (mvc.py lines 143-153).  -/

/-- An article as returned by the News API; every field may be absent
(`None` in Python). -/
structure Article where
  title : Option String
  author : Option String
  art_description : Option String
  content : Option String
  deriving DecidableEq, Repr

/-- Python `str(x)` applied to an optional string field: `None` renders as
the literal text `None`. -/
def pyStr : Option String → String
  | none => "None"
  | some s => s

/-- The News API client as used by report.py: top headlines for a source,
and the everything endpoint with either a title-only filter (`qintitle`)
or a full-text filter (`q`).  Exactly one of the two filters is set per
call, so the two shapes are separate fields. -/
structure NewsApi where
  get_top_headlines : String → List Article
  get_everything_qintitle : String → String → List Article
  get_everything_q : String → String → List Article

/-- A single apostrophe, as a string. -/
def apos : String := String.singleton (Char.ofNat 39)

/-- The decorator chain of report.py: `ReportBase` is the concrete
component, `ReportTitleSearch` and `ReportAllSearch` the concrete
decorators, each holding the wrapped report, a source id and a search
term (fields of `ReportExtension`). -/
inductive Report where
  | base (source_id : String)
  | titleSearch (report : Report) (source_id : String) (search_term : String)
  | allSearch (report : Report) (source_id : String) (search_term : String)

/-- `report_text` of report.py, one equation per class.
`ReportBase.report_text` (lines 39-47) starts from the headlines header
and appends a Title/Description block per article of the top-headlines
query.  `ReportTitleSearch.report_text` (lines 68-80) first renders the
wrapped report in full, then appends the asterisk separator, the
title-only search header, and a Title/Author block per article of the
`qintitle` query.  `ReportAllSearch.report_text` (lines 87-99) does the
same with the full-text query, a title-or-content header and
Title/Content blocks. -/
def Report.report_text (api : NewsApi) : Report → String
  | .base source_id =>
      (api.get_top_headlines source_id).foldl
        (fun acc a =>
          acc ++ "Title: " ++ pyStr a.title ++ "\n" ++
            "Description: " ++ pyStr a.art_description ++ "\n\n")
        ("Headlines from " ++ source_id ++ "\n\n")
  | .titleSearch report source_id search_term =>
      (api.get_everything_qintitle source_id search_term).foldl
        (fun acc a =>
          acc ++ "Title: " ++ pyStr a.title ++ "\n" ++
            "Author: " ++ pyStr a.author ++ "\n\n")
        (report.report_text api ++ "****************************************" ++
          "\n\nSearch results for " ++ apos ++ search_term ++ apos ++
          " in the title only: \n\n")
  | .allSearch report source_id search_term =>
      (api.get_everything_q source_id search_term).foldl
        (fun acc a =>
          acc ++ "Title: " ++ pyStr a.title ++ "\n" ++
            "Content: " ++ pyStr a.content ++ "\n\n")
        (report.report_text api ++ "****************************************" ++
          "\n\nSearch results for " ++ apos ++ search_term ++ apos ++
          " in the title or content: \n\n")

/-- The chain construction of `Controller.__print_report` (mvc.py lines
145-152): start from `ReportBase`, then — only when the stored serialized
field is non-empty — split it on `","` and wrap one `ReportTitleSearch`
per term in list order, then likewise one `ReportAllSearch` per all-term. -/
def buildReport (source_id title_search_terms all_search_terms : String) : Report :=
  let report := Report.base source_id
  let report :=
    if title_search_terms.length ≠ 0 then
      (pySplit ',' title_search_terms).foldl
        (fun r search_term => Report.titleSearch r source_id search_term) report
    else report
  if all_search_terms.length ≠ 0 then
    (pySplit ',' all_search_terms).foldl
      (fun r search_term => Report.allSearch r source_id search_term) report
  else report

/-!  Helper notions for stating and proving the rendering theorems.  -/

/-- Concatenation of a list of strings, no separator. -/
def strJoin : List String → String
  | [] => ""
  | t :: rest => t ++ strJoin rest

/-- Left fold that appends `f a` per element equals the initial string
followed by the concatenation of the pieces. -/
theorem foldl_append_eq {α : Type} (f : α → String) :
    ∀ (l : List α) (init : String),
      l.foldl (fun acc a => acc ++ f a) init = init ++ strJoin (l.map f)
  | [], init => by simp [strJoin]
  | a :: l, init => by
      simp only [List.foldl_cons, List.map_cons, strJoin]
      rw [foldl_append_eq f l (init ++ f a), String.append_assoc]

/-- The Title/Description block `ReportBase.report_text` emits per
headline article. -/
def headlineBlock (a : Article) : String :=
  "Title: " ++ pyStr a.title ++ "\n" ++ "Description: " ++ pyStr a.art_description ++ "\n\n"

/-- The Title/Author block `ReportTitleSearch.report_text` emits per
search-result article. -/
def titleArticleBlock (a : Article) : String :=
  "Title: " ++ pyStr a.title ++ "\n" ++ "Author: " ++ pyStr a.author ++ "\n\n"

/-- The Title/Content block `ReportAllSearch.report_text` emits per
search-result article. -/
def contentArticleBlock (a : Article) : String :=
  "Title: " ++ pyStr a.title ++ "\n" ++ "Content: " ++ pyStr a.content ++ "\n\n"

/-- The full text of the base stage: headlines header plus one block per
top-headline article. -/
def baseText (api : NewsApi) (source_id : String) : String :=
  "Headlines from " ++ source_id ++ "\n\n" ++
    strJoin ((api.get_top_headlines source_id).map headlineBlock)

/-- Everything a title-search stage appends after the text of the report
it wraps: separator, header, one block per result article. -/
def titleSearchText (api : NewsApi) (source_id search_term : String) : String :=
  "****************************************" ++
    "\n\nSearch results for " ++ apos ++ search_term ++ apos ++
    " in the title only: \n\n" ++
    strJoin ((api.get_everything_qintitle source_id search_term).map titleArticleBlock)

/-- Everything an all-search stage appends after the text of the report it
wraps: separator, header, one block per result article. -/
def allSearchText (api : NewsApi) (source_id search_term : String) : String :=
  "****************************************" ++
    "\n\nSearch results for " ++ apos ++ search_term ++ apos ++
    " in the title or content: \n\n" ++
    strJoin ((api.get_everything_q source_id search_term).map contentArticleBlock)

theorem report_text_base (api : NewsApi) (source_id : String) :
    (Report.base source_id).report_text api = baseText api source_id := by
  have hf : (fun (acc : String) (a : Article) =>
        acc ++ "Title: " ++ pyStr a.title ++ "\n" ++
          "Description: " ++ pyStr a.art_description ++ "\n\n")
      = fun (acc : String) (a : Article) => acc ++ headlineBlock a := by
    funext acc a
    simp [headlineBlock, String.append_assoc]
  simp only [Report.report_text, baseText]
  rw [hf, foldl_append_eq]

theorem report_text_titleSearch (api : NewsApi) (r : Report) (source_id search_term : String) :
    (Report.titleSearch r source_id search_term).report_text api =
      r.report_text api ++ titleSearchText api source_id search_term := by
  have hf : (fun (acc : String) (a : Article) =>
        acc ++ "Title: " ++ pyStr a.title ++ "\n" ++
          "Author: " ++ pyStr a.author ++ "\n\n")
      = fun (acc : String) (a : Article) => acc ++ titleArticleBlock a := by
    funext acc a
    simp [titleArticleBlock, String.append_assoc]
  simp only [Report.report_text, titleSearchText]
  rw [hf, foldl_append_eq]
  simp [String.append_assoc]

theorem report_text_allSearch (api : NewsApi) (r : Report) (source_id search_term : String) :
    (Report.allSearch r source_id search_term).report_text api =
      r.report_text api ++ allSearchText api source_id search_term := by
  have hf : (fun (acc : String) (a : Article) =>
        acc ++ "Title: " ++ pyStr a.title ++ "\n" ++
          "Content: " ++ pyStr a.content ++ "\n\n")
      = fun (acc : String) (a : Article) => acc ++ contentArticleBlock a := by
    funext acc a
    simp [contentArticleBlock, String.append_assoc]
  simp only [Report.report_text, allSearchText]
  rw [hf, foldl_append_eq]
  simp [String.append_assoc]

/-- Wrapping a report in one title-search decorator per term of a list,
in list order, appends one `titleSearchText` block per term, in the same
order, after the text of the original report. -/
theorem report_text_foldl_title (api : NewsApi) (source_id : String) :
    ∀ (l : List String) (r : Report),
      (l.foldl (fun r search_term => Report.titleSearch r source_id search_term) r).report_text api =
        r.report_text api ++ strJoin (l.map (titleSearchText api source_id))
  | [], r => by simp [strJoin]
  | t :: l, r => by
      simp only [List.foldl_cons, List.map_cons, strJoin]
      rw [report_text_foldl_title api source_id l (Report.titleSearch r source_id t),
        report_text_titleSearch, String.append_assoc]

/-- Wrapping a report in one all-search decorator per term of a list, in
list order, appends one `allSearchText` block per term, in the same
order, after the text of the original report. -/
theorem report_text_foldl_all (api : NewsApi) (source_id : String) :
    ∀ (l : List String) (r : Report),
      (l.foldl (fun r search_term => Report.allSearch r source_id search_term) r).report_text api =
        r.report_text api ++ strJoin (l.map (allSearchText api source_id))
  | [], r => by simp [strJoin]
  | t :: l, r => by
      simp only [List.foldl_cons, List.map_cons, strJoin]
      rw [report_text_foldl_all api source_id l (Report.allSearch r source_id t),
        report_text_allSearch, String.append_assoc]

/-- Rendering the chain built by `Controller.__print_report`: the base
text, then one title-search block per stored title term in stored order,
then one all-search block per stored all-term in stored order. -/
theorem report_text_buildReport (api : NewsApi) (source_id title_search_terms all_search_terms : String) :
    (buildReport source_id title_search_terms all_search_terms).report_text api =
      baseText api source_id ++
        strJoin ((deserializeTerms title_search_terms).map (titleSearchText api source_id)) ++
        strJoin ((deserializeTerms all_search_terms).map (allSearchText api source_id)) := by
  simp only [buildReport, deserializeTerms]
  by_cases h1 : title_search_terms.length ≠ 0 <;>
    by_cases h2 : all_search_terms.length ≠ 0 <;>
      simp [h1, h2, report_text_foldl_title, report_text_foldl_all, report_text_base,
        strJoin, String.append_assoc, String.append_empty]

/-!  Claim theorems about rendering.  -/

/-- The stub article source of the end-to-end scenario: the top-headlines
query for `cbc-news` returns one article with title `H1` and description
`D1`, and the title-only search for `hockey` on `cbc-news` returns one
article with title `T1` and author `A1`. -/
def stubApi : NewsApi :=
  { get_top_headlines := fun source_id =>
      if source_id = "cbc-news" then
        [{ title := some "H1", author := none, art_description := some "D1", content := none }]
      else []
    get_everything_qintitle := fun source_id search_term =>
      if source_id = "cbc-news" ∧ search_term = "hockey" then
        [{ title := some "T1", author := some "A1", art_description := none, content := none }]
      else []
    get_everything_q := fun _ _ => [] }

/-- C1: end-to-end scenario.  Creating the report `Sports` with source id
`cbc-news`, serialized title-term list of exactly `hockey` and no
all-terms, then reading it back, yields source id `cbc-news`, stored
title terms `hockey` and stored all terms the empty string; rendering the
chain the controller builds from those fields against the stub article
source produces exactly the expected report string (the apostrophe
character is written `apos`). -/
theorem claim_C1_end_to_end_render :
    Model.get_report_data
        (Model.create_report Store.empty "Sports" "cbc-news"
          (serializeTerms ["hockey"]) (serializeTerms [])).1 1 =
      (some "cbc-news", some "hockey", some "") ∧
    (buildReport "cbc-news" "hockey" "").report_text stubApi =
      "Headlines from cbc-news\n\nTitle: H1\nDescription: D1\n\n" ++
        "****************************************" ++
        "\n\nSearch results for " ++ apos ++ "hockey" ++ apos ++
        " in the title only: \n\nTitle: T1\nAuthor: A1\n\n" := by
  exact ⟨by decide, by decide⟩

/-- C4: for every stored definition the rendered report is the base text,
then one title-search block per stored title term in stored order, then
one all-search block per stored all term in stored order; moreover each
decorator renders the full text of the report it wraps unchanged in front
of its own appended block. -/
theorem claim_C4_render_order (api : NewsApi) (source_id title_search_terms all_search_terms : String) :
    ((buildReport source_id title_search_terms all_search_terms).report_text api =
      baseText api source_id ++
        strJoin ((deserializeTerms title_search_terms).map (titleSearchText api source_id)) ++
        strJoin ((deserializeTerms all_search_terms).map (allSearchText api source_id))) ∧
    (∀ (r : Report) (sid t : String),
      ∃ tail, (Report.titleSearch r sid t).report_text api = r.report_text api ++ tail) ∧
    (∀ (r : Report) (sid t : String),
      ∃ tail, (Report.allSearch r sid t).report_text api = r.report_text api ++ tail) := by
  refine ⟨report_text_buildReport api source_id title_search_terms all_search_terms, ?_, ?_⟩
  · exact fun r sid t => ⟨titleSearchText api sid t, report_text_titleSearch api r sid t⟩
  · exact fun r sid t => ⟨allSearchText api sid t, report_text_allSearch api r sid t⟩

/-- C8: a definition with both stored term fields empty renders to exactly
the base text — headlines header plus one Title/Description block per
returned article — and nothing else. -/
theorem claim_C8_empty_terms_base_only (api : NewsApi) (source_id : String) :
    (buildReport source_id "" "").report_text api =
      "Headlines from " ++ source_id ++ "\n\n" ++
        strJoin ((api.get_top_headlines source_id).map headlineBlock) := by
  rw [report_text_buildReport]
  simp [deserializeTerms, String.length_empty, strJoin, String.append_empty, baseText]

/-!  Round-trip properties of the comma serialization.  -/

theorem string_mk_data (s : String) : String.mk s.data = s := rfl

/-- Splitting a chunk free of the separator yields the chunk alone. -/
theorem splitSep_not_mem (sep : Char) :
    ∀ (l : List Char), sep ∉ l → splitSep sep l = (l, [])
  | [], _ => rfl
  | c :: cs, h => by
      simp only [List.mem_cons, not_or] at h
      have hc : c ≠ sep := fun e => h.1 e.symm
      simp [splitSep, hc, splitSep_not_mem sep cs h.2]

/-- Splitting a separator-free chunk followed by a separator and a tail
peels off exactly that chunk. -/
theorem splitSep_append (sep : Char) :
    ∀ (a : List Char), sep ∉ a → ∀ (rest : List Char),
      splitSep sep (a ++ sep :: rest) =
        (a, (splitSep sep rest).1 :: (splitSep sep rest).2)
  | [], _, rest => by simp [splitSep]
  | c :: a', h, rest => by
      simp only [List.mem_cons, not_or] at h
      have hc : c ≠ sep := fun e => h.1 e.symm
      simp [splitSep, hc, splitSep_append sep a' h.2 rest]

theorem pyJoin_data_cons_cons (t u : String) (rest : List String) :
    (pyJoin "," (t :: u :: rest)).data = t.data ++ ',' :: (pyJoin "," (u :: rest)).data := by
  show (t ++ "," ++ pyJoin "," (u :: rest)).data = _
  rw [String.data_append, String.data_append]
  simp

/-- Splitting the comma-join of a non-empty list of comma-free terms
recovers the terms. -/
theorem splitSep_pyJoin :
    ∀ (t : String) (rest : List String), ',' ∉ t.data → (∀ u ∈ rest, ',' ∉ u.data) →
      splitSep ',' (pyJoin "," (t :: rest)).data = (t.data, rest.map String.data)
  | t, [], ht, _ => by
      simp only [pyJoin, List.map_nil]
      exact splitSep_not_mem ',' t.data ht
  | t, u :: rest, ht, hr => by
      rw [pyJoin_data_cons_cons, splitSep_append ',' t.data ht,
        splitSep_pyJoin u rest (hr u (by simp)) (fun v hv => hr v (by simp [hv]))]
      rfl

/-- The comma round-trip of the controller: serializing any list of
comma-free terms other than the singleton empty term, then deserializing
the stored string, recovers the original list. -/
theorem roundtrip_terms (ts : List String)
    (h : ∀ t ∈ ts, ',' ∉ t.data) (hs : ts ≠ [""]) :
    deserializeTerms (serializeTerms ts) = ts := by
  match ts with
  | [] => rfl
  | [t] =>
      have ht : ',' ∉ t.data := h t (by simp)
      have htne : t ≠ "" := fun e => hs (by rw [e])
      have hlen : t.length ≠ 0 := by
        intro e
        apply htne
        have hnil : t.data = [] := List.length_eq_zero.mp e
        exact String.ext (by simp [hnil])
      show deserializeTerms (pyJoin "," [t]) = [t]
      simp only [pyJoin]
      simp only [deserializeTerms, if_pos hlen]
      simp [pySplit, splitSep_not_mem ',' t.data ht]
  | t :: u :: rest =>
      have hd := splitSep_pyJoin t (u :: rest) (h t (by simp))
        (fun v hv => h v (by simp [hv]))
      have hlen : (pyJoin "," (t :: u :: rest)).length ≠ 0 := by
        show (pyJoin "," (t :: u :: rest)).data.length ≠ 0
        rw [pyJoin_data_cons_cons]
        simp
      simp only [serializeTerms, deserializeTerms, if_pos hlen, pySplit, hd]
      have hcomp : (String.mk ∘ String.data) = id := funext fun s => rfl
      simp [string_mk_data, hcomp]

/-!  Claim theorems about serialization (C3, C7).  -/

/-- C3 counterexample: the one-element list holding the empty term
contains no comma at all, yet serializing it gives the empty string,
which the controller deserializes to the empty list — not back to the
original one-element list. -/
theorem claim_C3_counterexample :
    ("".data.contains ',') = false ∧
    serializeTerms [""] = "" ∧
    deserializeTerms (serializeTerms [""]) ≠ [""] := by
  decide

/-- C3 (amended): for every list of comma-free search terms other than
the singleton empty term, create followed by get at the new id returns
the original source id and the stored serialized term fields, and
deserializing those fields recovers the original term lists
element-for-element and in order (the empty list round-trips through the
empty string). -/
theorem claim_C3_create_get_roundtrip
    (report_name source_id : String) (title_terms all_terms : List String) (s : Store)
    (h1 : ∀ t ∈ title_terms, ',' ∉ t.data) (h2 : ∀ t ∈ all_terms, ',' ∉ t.data)
    (h3 : title_terms ≠ [""]) (h4 : all_terms ≠ [""]) :
    Model.get_report_data
        (Model.create_report s report_name source_id
          (serializeTerms title_terms) (serializeTerms all_terms)).1
        (match s.count with | none => 1 | some c => c + 1) =
      (some source_id, some (serializeTerms title_terms), some (serializeTerms all_terms)) ∧
    deserializeTerms (serializeTerms title_terms) = title_terms ∧
    deserializeTerms (serializeTerms all_terms) = all_terms := by
  refine ⟨?_, roundtrip_terms title_terms h1 h3, roundtrip_terms all_terms h2 h4⟩
  cases hc : s.count <;> simp [Model.create_report, Model.get_report_data, hc]

/-- Witness for C3: three comma-free title terms and no all terms,
created in the empty store and read back at id 1. -/
theorem claim_C3_witness :
    Model.get_report_data
        (Model.create_report Store.empty "Sports" "cbc-news"
          (serializeTerms ["a", "b", "c"]) (serializeTerms [])).1 1 =
      (some "cbc-news", some "a,b,c", some "") ∧
    deserializeTerms (serializeTerms ["a", "b", "c"]) = ["a", "b", "c"] ∧
    deserializeTerms (serializeTerms []) = [] :=
  claim_C3_create_get_roundtrip "Sports" "cbc-news" ["a", "b", "c"] [] Store.empty
    (by decide) (by decide) (by decide) (by decide)

/-- C7: a term containing the separator is accepted unvalidated — the
serialized field stored for the list holding the single term `a,b` is the
raw string `a,b`, and deserializing it returns two terms `a` and `b`
instead of the original single term. -/
theorem claim_C7_comma_term_corrupts :
    serializeTerms ["a,b"] = "a,b" ∧
    (Model.create_report Store.empty "n" "s" (serializeTerms ["a,b"]) (serializeTerms [])).1.records 1 =
      some { report_name := "n", source_id := "s",
             title_search_terms := "a,b", all_search_terms := "" } ∧
    deserializeTerms (serializeTerms ["a,b"]) = ["a", "b"] ∧
    deserializeTerms (serializeTerms ["a,b"]) ≠ ["a,b"] := by
  decide

/-!  Claim theorems about the store (C2, C5, C9, C10).  -/

/-- C2 counterexample: creating in the empty store assigns the new id 1
(the persisted count), but the operation returns `None` — Python
`Model.create_report` has no return statement — so the new id is not
returned to the caller. -/
theorem claim_C2_counterexample :
    (Model.create_report Store.empty "Sports" "cbc-news" "hockey" "").2 = none ∧
    (Model.create_report Store.empty "Sports" "cbc-news" "hockey" "").1.count = some 1 ∧
    (Model.create_report Store.empty "Sports" "cbc-news" "hockey" "").2 ≠ some 1 := by
  decide

/-- C2 (amended): for every input, create reads the current count
(absent counts as 0), increments it by one, persists the new count,
persists the four fields under the key derived from the new count — but
returns nothing (`None`), not the new id. -/
theorem claim_C2_create_effects
    (s : Store) (report_name source_id title_search_terms all_search_terms : String) :
    (Model.create_report s report_name source_id title_search_terms all_search_terms).1.count =
      some (s.count.getD 0 + 1) ∧
    (Model.create_report s report_name source_id title_search_terms all_search_terms).1.records
        (s.count.getD 0 + 1) =
      some { report_name := report_name, source_id := source_id,
             title_search_terms := title_search_terms,
             all_search_terms := all_search_terms } ∧
    (Model.create_report s report_name source_id title_search_terms all_search_terms).2 = none := by
  cases hc : s.count <;> simp [Model.create_report, hc]

/-- C5 counterexample: on a store with no counter key, `get_report_names`
fails (the Python code raises `TypeError` on `int(None)`, modelled by
`none`) instead of returning the empty sequence. -/
theorem claim_C5_counterexample :
    Model.get_report_names Store.empty = none ∧
    Model.get_report_names Store.empty ≠ some [] := by
  decide

/-- C5 (amended): whenever the report counter key is absent,
`get_report_names` fails rather than treating the store as empty. -/
theorem claim_C5_absent_count_fails (s : Store) (h : s.count = none) :
    Model.get_report_names s = none := by
  simp [Model.get_report_names, h]

/-- Witness for C5 at the empty store. -/
theorem claim_C5_witness : Model.get_report_names Store.empty = none :=
  claim_C5_absent_count_fails Store.empty rfl

/-- C9: reading a nonexistent id yields `None` for each of the three
fields, so a caller can detect a missing definition from entirely-absent
field data; no error is raised. -/
theorem claim_C9_get_missing_id (s : Store) (report_id : Nat)
    (h : s.records report_id = none) :
    Model.get_report_data s report_id = (none, none, none) := by
  simp [Model.get_report_data, h]

/-- Witness for C9: id 7 in the empty store. -/
theorem claim_C9_witness : Model.get_report_data Store.empty 7 = (none, none, none) :=
  claim_C9_get_missing_id Store.empty 7 rfl

/-- C10: with a stored count `k` and a missing record at some id
`1 ≤ i ≤ k`, `get_report_names` still succeeds with a list of length `k`
whose element at position `i - 1` is the null placeholder `none`. -/
theorem claim_C10_gap_yields_null (s : Store) (k i : Nat)
    (hc : s.count = some k) (h1 : 1 ≤ i) (h2 : i ≤ k)
    (hrec : s.records i = none) :
    (Model.get_report_names s).isSome = true ∧
    ((Model.get_report_names s).getD []).length = k ∧
    ((Model.get_report_names s).getD [])[i - 1]? = some none := by
  simp only [Model.get_report_names, hc, Option.isSome_some, Option.getD_some]
  refine ⟨trivial, by simp, ?_⟩
  rw [List.getElem?_map, List.getElem?_range' 1 1 (by omega : i - 1 < k)]
  have hi : 1 + 1 * (i - 1) = i := by omega
  rw [hi]
  simp [hrec]

/-- A store whose counter says two reports but whose record at id 2 is
missing. -/
def gapStore : Store :=
  { count := some 2
    records := fun i =>
      if i = 1 then
        some { report_name := "A", source_id := "s",
               title_search_terms := "", all_search_terms := "" }
      else none }

/-- Witness for C10 on `gapStore`: the name list has length 2 and a null
placeholder at position 1. -/
theorem claim_C10_witness :
    (Model.get_report_names gapStore).isSome = true ∧
    ((Model.get_report_names gapStore).getD []).length = 2 ∧
    ((Model.get_report_names gapStore).getD [])[2 - 1]? = some none :=
  claim_C10_gap_yields_null gapStore 2 2 rfl (by decide) (by decide) rfl

/-!  Claim C6: state of the store after k successive creates.  Note that
after zero creates the counter key is entirely absent (`none`), not
stored as 0, and `get_report_names` then fails; the invariant holds from
the first create on.  -/

theorem rec_eta (r : ReportRec) :
    ReportRec.mk r.report_name r.source_id r.title_search_terms r.all_search_terms = r := rfl

/-- Joint effect of one `create_report` call: the new count is the old
one (absent counts as 0) plus one, the record at the new id holds the
four arguments, every other id is untouched, and the call returns
`None`. -/
theorem create_report_effects
    (s : Store) (report_name source_id title_search_terms all_search_terms : String) :
    (Model.create_report s report_name source_id title_search_terms all_search_terms).1.count =
      some (s.count.getD 0 + 1) ∧
    (∀ j : Nat,
      (Model.create_report s report_name source_id title_search_terms all_search_terms).1.records j =
        if j = s.count.getD 0 + 1 then
          some { report_name := report_name, source_id := source_id,
                 title_search_terms := title_search_terms,
                 all_search_terms := all_search_terms }
        else s.records j) ∧
    (Model.create_report s report_name source_id title_search_terms all_search_terms).2 = none := by
  cases hc : s.count <;> simp [Model.create_report, hc]

/-- Successive `create_report` calls starting from the empty store, one
per record (name, source id and the two serialized term fields). -/
def createMany (L : List ReportRec) : Store :=
  L.foldl
    (fun s r =>
      (Model.create_report s r.report_name r.source_id
        r.title_search_terms r.all_search_terms).1)
    Store.empty

/-- After creating the records of `L` in order, the counter is absent for
zero creates and equals the number of creates otherwise, and the record
at id `j` is the `j`-th created record (ids start at 1; every other id is
absent). -/
theorem createMany_state (L : List ReportRec) :
    (createMany L).count = (if L.length = 0 then none else some L.length) ∧
    ∀ j : Nat, (createMany L).records j = if 1 ≤ j then L[j - 1]? else none := by
  induction L using List.reverseRecOn with
  | nil =>
      refine ⟨rfl, fun j => ?_⟩
      cases j <;> simp [createMany, Store.empty]
  | append_singleton l r ih =>
      obtain ⟨ihc, ihr⟩ := ih
      have hstep : createMany (l ++ [r]) =
          (Model.create_report (createMany l) r.report_name r.source_id
            r.title_search_terms r.all_search_terms).1 := by
        simp [createMany, List.foldl_append]
      obtain ⟨hc, hr, -⟩ := create_report_effects (createMany l) r.report_name r.source_id
        r.title_search_terms r.all_search_terms
      have hgetD : (createMany l).count.getD 0 = l.length := by
        rw [ihc]
        by_cases h0 : l.length = 0 <;> simp [h0]
      rw [hgetD] at hc hr
      constructor
      · rw [hstep, hc]
        simp
      · intro j
        rw [hstep, hr j, ihr j]
        by_cases hj : j = l.length + 1
        · subst hj
          rw [if_pos rfl, if_pos (by omega)]
          rw [List.getElem?_append_right (by omega)]
          simp [rec_eta]
        · rw [if_neg hj]
          by_cases hj1 : 1 ≤ j
          · rw [if_pos hj1, if_pos hj1]
            by_cases hlt : j - 1 < l.length
            · rw [List.getElem?_append_left hlt]
            · have hge : l.length ≤ j - 1 := by omega
              rw [List.getElem?_eq_none hge,
                List.getElem?_append_right hge,
                List.getElem?_eq_none (by simp; omega)]
          · rw [if_neg hj1, if_neg hj1]

/-- With at least one create done, `get_report_names` succeeds and lists
the created names, ascending id order = creation order. -/
theorem createMany_names (L : List ReportRec) (hL : L ≠ []) :
    Model.get_report_names (createMany L) = some (L.map fun r => some r.report_name) := by
  obtain ⟨hc, hr⟩ := createMany_state L
  have h0 : L.length ≠ 0 := fun e => hL (List.length_eq_zero.mp e)
  simp only [Model.get_report_names, hc, if_neg h0]
  congr 1
  apply List.ext_getElem?
  intro n
  rw [List.getElem?_map, List.getElem?_map]
  rcases Nat.lt_or_ge n L.length with hn | hn
  · rw [List.getElem?_range' 1 1 hn]
    have he : 1 + 1 * n - 1 = n := by omega
    simp [hr, he, List.getElem?_eq_getElem hn]
  · have h1 : (List.range' 1 L.length)[n]? = none :=
      List.getElem?_eq_none (by simp [hn])
    have h2 : L[n]? = none := List.getElem?_eq_none hn
    rw [h1, h2]
    rfl

/-- C6 counterexample: after zero creates the stored count does not equal
0 — the counter key is entirely absent — and `get_report_names` fails
instead of returning a length-0 sequence. -/
theorem claim_C6_counterexample :
    (createMany []).count = none ∧
    (createMany []).count ≠ some 0 ∧
    Model.get_report_names (createMany []) = none := by
  decide

/-- C6 (amended): starting from the empty store, after `create` has been
called k times for every k ≥ 1, the stored count equals k, definition
records exist exactly for ids 1 through k with no gaps, and
`get_report_names` returns a sequence of length k holding the created
names in ascending id order, which is creation order.  (After zero
creates the counter key is absent and `get_report_names` fails.) -/
theorem claim_C6_dense_ids (L : List ReportRec) (hL : L ≠ []) :
    (createMany L).count = some L.length ∧
    Model.get_report_names (createMany L) = some (L.map fun r => some r.report_name) ∧
    (L.map fun r => some r.report_name).length = L.length ∧
    ∀ i : Nat, ((createMany L).records i).isSome = true ↔ (1 ≤ i ∧ i ≤ L.length) := by
  obtain ⟨hc, hr⟩ := createMany_state L
  have h0 : L.length ≠ 0 := fun e => hL (List.length_eq_zero.mp e)
  refine ⟨by rw [hc, if_neg h0], createMany_names L hL, by simp, fun i => ?_⟩
  rw [hr i]
  by_cases hi : 1 ≤ i
  · rw [if_pos hi]
    constructor
    · intro hsome
      rcases Nat.lt_or_ge (i - 1) L.length with hlt | hge
      · exact ⟨hi, by omega⟩
      · rw [List.getElem?_eq_none hge] at hsome
        exact absurd hsome (by simp)
    · rintro ⟨-, h2⟩
      rw [List.getElem?_eq_getElem (by omega : i - 1 < L.length)]
      rfl
  · rw [if_neg hi]
    simp
    omega

/-- First record of the C6 witness scenario. -/
def recA : ReportRec :=
  { report_name := "A", source_id := "s1", title_search_terms := "", all_search_terms := "" }

/-- Second record of the C6 witness scenario. -/
def recB : ReportRec :=
  { report_name := "B", source_id := "s2", title_search_terms := "x", all_search_terms := "" }

/-- Witness for C6: two creates give count 2, names in creation order,
and a record present at id 2. -/
theorem claim_C6_witness :
    (createMany [recA, recB]).count = some 2 ∧
    Model.get_report_names (createMany [recA, recB]) = some [some "A", some "B"] ∧
    (((createMany [recA, recB]).records 2).isSome = true ↔ (1 ≤ 2 ∧ 2 ≤ 2)) := by
  obtain ⟨h1, h2, h3, h4⟩ := claim_C6_dense_ids [recA, recB] (by decide)
  exact ⟨h1, h2, h4 2⟩
